import Mathlib

/-!
Verification of the yambs build-file generator against its specification.

The Rust sources are shallowly embedded: pure computations become Lean
functions, filesystem and subprocess effects become explicit inputs
(existence flags, process outputs, file-lookup oracles), and fallible
operations return `Except`.
-/

namespace Yambs

/-! ## Toolchain probe (crates/rsmake/compiler.rs) -/

/-- Vendor classification of the configured compiler (`Type` in compiler.rs). -/
inductive CompilerType
  | Gcc
  | Clang
deriving DecidableEq, Repr

/-- Errors of the toolchain probe (`CompilerError` in errors.rs, as used by compiler.rs). -/
inductive CompilerError
  | CXXEnvNotSet
  | InvalidCompiler
  | FailedToCompileSample (stderr : String)
deriving DecidableEq, Repr

/-- Whether the character list `s` starts with `sub`. -/
def listStartsWith : List Char → List Char → Bool
  | _, [] => true
  | [], _ :: _ => false
  | c :: cs, d :: ds => c == d && listStartsWith cs ds

/-- Whether `sub` occurs contiguously somewhere inside `s`. -/
def listContainsSub : List Char → List Char → Bool
  | s, sub =>
    if listStartsWith s sub then true
    else
      match s with
      | [] => false
      | _ :: rest => listContainsSub rest sub

/-- Unanchored regex search used by `Regex::is_match`: the pattern text occurs
somewhere in the string. -/
def strContainsSub (s sub : String) : Bool :=
  listContainsSub s.toList sub.toList

/-- Split a character list at every occurrence of the separator. -/
def splitListOnAux (sep : Char) : List Char → List Char → List (List Char)
  | [], cur => [cur.reverse]
  | c :: rest, cur =>
    if c == sep then cur.reverse :: splitListOnAux sep rest []
    else splitListOnAux sep rest (c :: cur)

/-- Split a character list on a separator character. -/
def splitListOn (sep : Char) (s : List Char) : List (List Char) :=
  splitListOnAux sep s []

/-- `Path::file_name` for Unix-style path strings, on characters: the final
component of the path, unless the path is empty, a root, or terminates in
`..`; `.` components and empty components (from `/` separators) are
ignored. -/
def fileNameChars (p : String) : Option (List Char) :=
  let comps := (splitListOn '/' p.toList).filter (fun c => !c.isEmpty && c != ['.'])
  match comps.getLast? with
  | none => none
  | some c => if c = ['.', '.'] then none else some c

/-- `Path::file_name` as a string. -/
def fileName (p : String) : Option String :=
  Option.map String.mk (fileNameChars p)

/-- `gcc_pattern.is_match`: the pattern is the unanchored alternation
regex g\+\+.*|gcc.*, so it matches any string containing g++ or gcc. -/
def gccPatternIsMatch (s : String) : Bool :=
  strContainsSub s "g++" || strContainsSub s "gcc"

/-- `clang_pattern.is_match`: the pattern is the unanchored regex clang.*,
so it matches any string containing clang. -/
def clangPatternIsMatch (s : String) : Bool :=
  strContainsSub s "clang"

/-- `Compiler::evaluate_compiler_type`: classify the vendor from the
executable path; the GCC pattern is consulted first. -/
def evaluateCompilerType (compilerExe : String) : Except CompilerError CompilerType :=
  match fileName compilerExe with
  | some exe =>
    if gccPatternIsMatch exe then Except.ok CompilerType.Gcc
    else if clangPatternIsMatch exe then Except.ok CompilerType.Clang
    else Except.error CompilerError.InvalidCompiler
  | none => Except.error CompilerError.CXXEnvNotSet

/-- The `Compiler` struct of compiler.rs. -/
structure Compiler where
  compilerExe : String
  compilerType : CompilerType
deriving DecidableEq, Repr

/-- `Compiler::new`, with the `CXX` environment variable supplied as an
explicit input (`none` models an absent variable). -/
def Compiler.new (cxxEnv : Option String) : Except CompilerError Compiler :=
  match cxxEnv with
  | none => Except.error CompilerError.CXXEnvNotSet
  | some compilerExe =>
    match evaluateCompilerType compilerExe with
    | Except.ok ty => Except.ok ⟨compilerExe, ty⟩
    | Except.error e => Except.error e

/-- Captured result of a finished subprocess: whether its exit status was
success, and its captured standard-error text. -/
structure ProcessOutput where
  success : Bool
  stderr : String
deriving DecidableEq, Repr

/-- Content written by `create_sample_cpp_main` into `<dir>/main.cpp`
(four `writeln` calls; the body indented by four spaces). -/
def createSampleCppMainContent : String :=
  "int main()\n\x7b\n    return 0;\n\x7d\n"

/-- `Compiler::create_sample_compile_args` (identical for both vendors). -/
def createSampleCompileArgs (destinationDir : String) : List String :=
  ["-I" ++ destinationDir, "-o", destinationDir ++ "/a.out"]

/-- Full argument list handed to the compiler subprocess in `sample_compile`:
the input file followed by the sample compile arguments. -/
def sampleCompileArgList (inputFile destinationDir : String) : List String :=
  inputFile :: createSampleCompileArgs destinationDir

/-- `Compiler::sample_compile` after the subprocess has run: the captured
output decides the result. -/
def sampleCompile (output : ProcessOutput) : Except CompilerError Unit :=
  if !output.success then
    Except.error (CompilerError.FailedToCompileSample output.stderr)
  else Except.ok ()

/-! ## Source file classification (src/build_target/associated_files.rs) -/

/-- `FileType` in associated_files.rs. -/
inductive FileType
  | Source
  | Header
deriving DecidableEq, Repr

/-- `AssociatedFileError` in associated_files.rs. -/
inductive AssociatedFileError
  | CouldNotSpecifyFileType (ext : String)
  | FileNotExisting (path : String)
  | NoFileExtension (path : String)
deriving DecidableEq, Repr

/-- `SourceFile` in associated_files.rs. -/
structure SourceFile where
  fileType : FileType
  file : String
deriving DecidableEq, Repr

/-- `SourceFile::new`. The filesystem existence check (`file.exists()`) and
the computed extension (`file.extension().and_then(|e| e.to_str())`) are
supplied as explicit inputs. -/
def SourceFile.new (path : String) (onDisk : Bool) (ext : Option String) :
    Except AssociatedFileError SourceFile :=
  if !onDisk then Except.error (AssociatedFileError.FileNotExisting path)
  else
    match ext with
    | some ft =>
      if ft = "cpp" ∨ ft = "cc" ∨ ft = "c" then Except.ok ⟨FileType.Source, path⟩
      else if ft = "h" ∨ ft = "hpp" then Except.ok ⟨FileType.Header, path⟩
      else Except.error (AssociatedFileError.CouldNotSpecifyFileType ft)
    | none => Except.error (AssociatedFileError.NoFileExtension path)

/-! ## External library resolution (src/build_target/pkg_config.rs) -/

/-- `LibraryType` of build_target. -/
inductive LibraryType
  | Static
  | Dynamic
deriving DecidableEq, Repr

/-- `PrintableLibrary` of build_target: a library file name plus its type. -/
structure PrintableLibrary where
  name : String
  ty : LibraryType
deriving DecidableEq, Repr

/-- `PkgConfigLibrary` in pkg_config.rs. -/
structure PkgConfigLibrary where
  printable : PrintableLibrary
  dir : String
deriving DecidableEq, Repr

/-- `PkgConfigError` in pkg_config.rs (the variants the embedded code uses). -/
inductive PkgConfigError
  | CouldNotFindPkgConfig
  | PkgConfigFailedWithError (stderr : String)
  | CouldNotLocateLibrary (name : String)
deriving DecidableEq, Repr

/-- Modelled from the spec: `PrintableLibrary::possible_lib_names` is not under
src/. Per the spec, a located library file matches the platform static/dynamic
naming conventions — static archives are named lib<name>.a and dynamic
libraries use the platform shared-object suffix .so — tried in that order,
with static as the default. -/
def possibleLibNames (library : String) : List String :=
  ["lib" ++ library ++ ".a", "lib" ++ library ++ ".so"]

/-- `Path::extension` for Unix-style path strings: the portion of the file
name after the last dot, unless the file name has no dot after its first
character. -/
def pathExtension (p : String) : Option String :=
  match fileNameChars p with
  | none => none
  | some name =>
    match splitListOn '.' name with
    | [] => none
    | [_] => none
    | [first, ext] => if first.isEmpty then none else some (String.mk ext)
    | parts => Option.map String.mk parts.getLast?

/-- Interleave a slash between path components. -/
def joinComponents : List (List Char) → List Char
  | [] => []
  | [x] => x
  | x :: rest => x ++ '/' :: joinComponents rest

/-- `Path::parent` (unwrapped) for Unix-style path strings: everything before
the final component. -/
def pathParent (p : String) : String :=
  String.mk (joinComponents (splitListOn '/' p.toList).dropLast)

/-- Library type inferred in `PkgConfigLibrary::find` from the found file's
extension; static when ambiguous. The extension constants of build_target are
not under src/ and are modelled from the spec as a (static) and so (dynamic). -/
def libraryTypeOfFound (foundLib : String) : LibraryType :=
  match pathExtension foundLib with
  | some "a" => LibraryType.Static
  | some "so" => LibraryType.Dynamic
  | _ => LibraryType.Static

/-- The candidate-name loop of `PkgConfigLibrary::find`: both arms of the
match on `find_program` return, so only the head candidate is ever tried. -/
def pkgFindLoop (findInDir : String → Option String) :
    List String → Option PkgConfigLibrary
  | [] => none
  | libName :: _rest =>
    match findInDir libName with
    | some foundLib =>
      some ⟨⟨libName, libraryTypeOfFound foundLib⟩, pathParent foundLib⟩
    | none => none

/-- `PkgConfigLibrary::find`: `findProgram dir name` is the filesystem search
oracle (`find_program` restricted to directory `dir`, recursing into
subdirectories), returning the path of the found file. -/
def PkgConfigLibrary.find (findProgram : String → String → Option String)
    (library dir : String) : Option PkgConfigLibrary :=
  pkgFindLoop (findProgram dir) (possibleLibNames library)

/-- Inner loop of `PkgConfig::find_target` for one library name: walk the
search paths, pushing each found library and returning the
could-not-locate-library error as soon as one search path yields nothing. -/
def locateInPaths (findProgram : String → String → Option String)
    (libName : String) : List String → List PkgConfigLibrary →
    Except PkgConfigError (List PkgConfigLibrary)
  | [], acc => Except.ok acc
  | dir :: rest, acc =>
    match PkgConfigLibrary.find findProgram libName dir with
    | some lib => locateInPaths findProgram libName rest (acc ++ [lib])
    | none => Except.error (PkgConfigError.CouldNotLocateLibrary libName)

/-- The library-location phase of `PkgConfig::find_target`: the nested loop
over the library names reported by the query helper and the reported search
paths, producing `library_paths` or the first location error. -/
def locateAllLibraries (findProgram : String → String → Option String) :
    List String → List String → List PkgConfigLibrary →
    Except PkgConfigError (List PkgConfigLibrary)
  | [], _, acc => Except.ok acc
  | name :: rest, searchPaths, acc =>
    match locateInPaths findProgram name searchPaths acc with
    | Except.ok acc2 => locateAllLibraries findProgram rest searchPaths acc2
    | Except.error e => Except.error e

/-! ## Manifest data rendering (mmk_parser Mmk::to_string, both generations) -/

/-- The text emitted for one argument of key `key` in the early
`Mmk::to_string` (mmk_parser/src/lib.rs): a -I marker for MMK_DEPEND, an
-isystem marker for MMK_SYS_INCLUDE, then the argument and a space. -/
def mmkItemRendered (key item : String) : String :=
  (if key = "MMK_DEPEND" then "-I" else "")
    ++ (if key = "MMK_SYS_INCLUDE" then "-isystem " else "")
    ++ item ++ " "

/-- The argument loop of `Mmk::to_string`: rendering stops (`break`) at the
first empty argument. -/
def mmkRenderArgs (key : String) : List String → String
  | [] => ""
  | item :: rest =>
    if item = "" then ""
    else mmkItemRendered key item ++ mmkRenderArgs key rest

/-- `trim_end`: drop trailing whitespace. -/
def trimEndString (s : String) : String :=
  String.mk ((s.toList.reverse.dropWhile Char.isWhitespace).reverse)

/-- Lookup in the `data` map of an `Mmk`, modelled as an association list. -/
def mmkLookup (data : List (String × List String)) (key : String) :
    Option (List String) :=
  match data with
  | [] => none
  | (k, v) :: rest => if k = key then some v else mmkLookup rest key

/-- `Mmk::to_string` (mmk_parser/src/lib.rs): empty result when the key is
absent, otherwise the rendered arguments with trailing whitespace trimmed. -/
def mmkToString (data : List (String × List String)) (key : String) : String :=
  match mmkLookup data key with
  | some items => trimEndString (mmkRenderArgs key items)
  | none => ""

/-- One argument of the later `Mmk::to_string` (src/mmk_parser/mod.rs), where
arguments are `Keyword` values and only MMK_SYS_INCLUDE gets a marker. -/
def mmkItemRenderedKw (key argument : String) : String :=
  (if key = "MMK_SYS_INCLUDE" then "-isystem " else "") ++ argument ++ " "

/-- The argument loop of the later `Mmk::to_string`: stops at the first
keyword whose argument is empty. -/
def mmkRenderArgsKw (key : String) : List String → String
  | [] => ""
  | argument :: rest =>
    if argument = "" then ""
    else mmkItemRenderedKw key argument ++ mmkRenderArgsKw key rest

/-- The later `Mmk::to_string` on the argument list stored for `key`
(arguments shown by their `argument()` accessor). -/
def mmkToStringKw (data : List (String × List String)) (key : String) : String :=
  match mmkLookup data key with
  | some items => trimEndString (mmkRenderArgsKw key items)
  | none => ""

/-! ## Include-file generator (src/generator/makefile/include_file_generator.rs) -/

/-- The `args` map of `IncludeFileGenerator`, restricted to the keys the
sanitizer and C++-version logic uses. -/
structure IncludeFileArgs where
  sanitizers : Option String
  cppVersion : Option String
deriving DecidableEq, Repr

/-- The string stored by `Sanitizer::set_sanitizer` for a requested kind
(the match arms of `set_sanitizer`, in source order). -/
def sanitizerValue (sanitizer : String) : String :=
  if sanitizer = "address" then "address "
  else if sanitizer = "thread" then "thread -fPIE -pie "
  else if sanitizer = "leak" then "leak "
  else if sanitizer = "undefined" then "undefined "
  else ""

/-- `Sanitizer::set_sanitizer`: unconditionally inserts the (possibly empty)
value under the sanitizers key. -/
def setSanitizer (g : IncludeFileArgs) (sanitizer : String) : IncludeFileArgs :=
  { g with sanitizers := some (sanitizerValue sanitizer) }

/-- `IncludeFileGenerator::get_sanitizers`. -/
def getSanitizers (g : IncludeFileArgs) : String :=
  match g.sanitizers with
  | some v => "-fsanitize=" ++ v
  | none => ""

/-- The CXXFLAGS line of the sanitizer fragment. -/
def sanitizerCxxLine (g : IncludeFileArgs) : String :=
  "CXXFLAGS += " ++ getSanitizers g

/-- The LDFLAGS line of the sanitizer fragment. -/
def sanitizerLdLine (g : IncludeFileArgs) : String :=
  "LDFLAGS += " ++ getSanitizers g

/-- `UtilityGenerator::generate_flags_sanitizer`: empty when no sanitizers
entry exists, otherwise the CXXFLAGS line, a blank line, and the LDFLAGS
line. This string is interpolated into the debug fragment (debug.mk). -/
def generateFlagsSanitizer (g : IncludeFileArgs) : String :=
  match g.sanitizers with
  | some _ => sanitizerCxxLine g ++ "\n\n" ++ sanitizerLdLine g
  | none => ""

/-- `str::to_lowercase`, modelled character by character (the configured
standard strings are ASCII). -/
def strToLower (s : String) : String :=
  String.mk (s.toList.map Char.toLower)

/-- `UtilityGenerator::add_cpp_version`: stores the lowercased version string. -/
def addCppVersion (g : IncludeFileArgs) (version : String) : IncludeFileArgs :=
  { g with cppVersion := some (strToLower version) }

/-- `UtilityGenerator::print_cpp_version`: map the stored C++ key to a
-std flag, defaulting to -std=c++20 when absent or unrecognized. -/
def printCppVersion (g : IncludeFileArgs) : String :=
  match g.cppVersion with
  | some s =>
    if s = "c++98" then "-std=c++98"
    else if s = "c++03" then "-std=c++03"
    else if s = "c++11" then "-std=c++11"
    else if s = "c++14" then "-std=c++14"
    else if s = "c++17" then "-std=c++17"
    else if s = "c++20" then "-std=c++20"
    else "-std=c++20"
  | none => "-std=c++20"

/-- The recognized C++ standard strings of `print_cpp_version`. -/
def recognizedCppVersions : List String :=
  ["c++98", "c++03", "c++11", "c++14", "c++17", "c++20"]

/-- The CXXFLAGS line of the warnings fragment (warnings.mk) carrying the C++
standard flag: the template line CXXFLAGS += followed by the value of
`print_cpp_version`. -/
def warningsMkCppVersionLine (g : IncludeFileArgs) : String :=
  "CXXFLAGS += " ++ printCppVersion g

/-- Substring containment, used to state what a generated fragment contains. -/
def containsSub (s sub : String) : Prop :=
  ∃ a b, s = a ++ sub ++ b

/-! ## Rule-file generation traversal (generator/src/lib.rs) -/

/-- Observable generation state of `MmkGenerator::generate_makefiles`:
which dependency nodes (identified by numeric keys) carry the
makefile-made flag, and the rule files written so far, in write order.
The Dependency type itself is not under src/; its makefile-made flag is
modelled from the spec as a per-node generated marker. -/
structure GenState where
  made : List Nat
  writes : List Nat
deriving DecidableEq, Repr

/-- The guarded mark-and-write step appearing twice in
`generate_makefiles`: if the node's flag is unset, set it
(`makefile_made()`) and write its rule file (`generate_makefile()`);
otherwise do nothing. -/
def markAndWrite (dep : Nat) (s : GenState) : GenState :=
  if dep ∈ s.made then s
  else { made := dep :: s.made, writes := s.writes ++ [dep] }

/-- `MmkGenerator::generate_makefiles`: handle the current node, then for
each required dependency mark-and-write it before recursing into it.
`req` gives each node's required dependencies; `fuel` bounds the recursion
depth so the embedding is total (the Rust recursion terminates only on
acyclic graphs, which graph construction guarantees). -/
def generateMakefiles (req : Nat → List Nat) : Nat → Nat → GenState → GenState
  | 0, _, s => s
  | fuel + 1, dep, s =>
    (req dep).foldl (fun acc r => generateMakefiles req fuel r (markAndWrite r acc))
      (markAndWrite dep s)

/-- A diamond dependency graph: the root 0 requires targets 1 and 3, and
both 1 and 3 require the shared target 2. -/
def diamondReq : Nat → List Nat
  | 0 => [1, 3]
  | 1 => [2]
  | 3 => [2]
  | _ => []

/-- Invariant of the generation traversal: no rule file is written twice,
and every written node carries the makefile-made flag. -/
def GenInv (s : GenState) : Prop :=
  s.writes.Nodup ∧ ∀ n ∈ s.writes, n ∈ s.made

/-- Whether `Compiler::new` succeeds. -/
def compilerNewSucceeds (cxxEnv : Option String) : Bool :=
  match Compiler.new cxxEnv with
  | Except.ok _ => true
  | Except.error _ => false

/-- A concrete filesystem for the external-resolution scenario: the library
file libfoo.a exists in the search path /p2 and nowhere else. -/
def c2FindOracle : String → String → Option String := fun dir name =>
  if dir = "/p2" && name = "libfoo.a" then some "/p2/libfoo.a" else none

/-- A concrete filesystem for the single-library search scenario: only the
shared-object file libz.so exists, in /usr/lib. -/
def c8FindOracle : String → String → Option String := fun dir name =>
  if dir = "/usr/lib" && name = "libz.so" then some "/usr/lib/libz.so" else none

/-- Concatenation of a list of strings, in order. -/
def strJoin : List String → String
  | [] => ""
  | x :: rest => x ++ strJoin rest

/-! ## Theorems -/

/-- C1: vendor classification of a configured compiler executable. The claim
says a base name beginning with gcc or g++ is GCC, one beginning with clang
is Clang, and in particular clang++ is classified as Clang, never as GCC.
The code instead classifies clang++ as GCC: `Regex::is_match` is an
unanchored search, the GCC pattern is consulted first, and clang++ contains
g++ as a substring. -/
theorem c1_clangpp_classified_as_gcc :
    evaluateCompilerType "clang++" = Except.ok CompilerType.Gcc ∧
    evaluateCompilerType "clang++" ≠ Except.ok CompilerType.Clang := by
  refine ⟨rfl, ?_⟩
  intro h
  rw [show evaluateCompilerType "clang++" = Except.ok CompilerType.Gcc from rfl] at h
  injection h with h2
  exact absurd h2 (by decide)

/-- C2: external library location in `PkgConfig::find_target`. The claim says
the first file found across the returned search paths is used and the
library-not-located error occurs exactly when the library is found in no
search path. The code instead fails as soon as any single search path lacks
the library: with search paths /p1 and /p2 and libfoo.a present only in /p2,
resolution reports CouldNotLocateLibrary although the library is findable
in /p2. -/
theorem c2_located_library_reported_missing :
    locateAllLibraries c2FindOracle ["foo"] ["/p1", "/p2"] [] =
      Except.error (PkgConfigError.CouldNotLocateLibrary "foo") ∧
    PkgConfigLibrary.find c2FindOracle "foo" "/p2" =
      some ⟨⟨"libfoo.a", LibraryType.Static⟩, "/p2"⟩ :=
  ⟨rfl, rfl⟩

/-- C5: the live compile probe materializes a trivial main translation unit,
invokes the compiler on it inside the scratch directory, and fails exactly
when the subprocess exits non-zero, carrying the captured stderr verbatim;
on success exit it returns unit. -/
theorem c5_sample_compile_probe :
    (∀ out : ProcessOutput,
        (∃ e, sampleCompile out = Except.error e) ↔ out.success = false) ∧
    (∀ stderrText, sampleCompile ⟨false, stderrText⟩ =
        Except.error (CompilerError.FailedToCompileSample stderrText)) ∧
    (∀ stderrText, sampleCompile ⟨true, stderrText⟩ = Except.ok ()) ∧
    (∀ inputFile dir, sampleCompileArgList inputFile dir =
        [inputFile, "-I" ++ dir, "-o", dir ++ "/a.out"]) ∧
    containsSub createSampleCppMainContent "int main()" ∧
    containsSub createSampleCppMainContent "return 0;" := by
  refine ⟨?_, fun _ => rfl, fun _ => rfl, fun _ _ => rfl,
    ⟨"", "\n\x7b\n    return 0;\n\x7d\n", by decide⟩,
    ⟨"int main()\n\x7b\n    ", "\n\x7d\n", by decide⟩⟩
  intro out
  obtain ⟨succ, st⟩ := out
  cases succ <;> simp [sampleCompile]

/-- C7: classification of a declared source file. A file absent from disk
fails with the file-not-existing error; otherwise recognized source suffixes
classify as Source, recognized header suffixes as Header, any other
extension fails with the could-not-specify-file-type error, and a file with
no extension fails with the no-file-extension error. -/
theorem c7_source_file_classification :
    (∀ path ext, SourceFile.new path false ext =
        Except.error (AssociatedFileError.FileNotExisting path)) ∧
    (∀ path, SourceFile.new path true (some "cpp") = Except.ok ⟨FileType.Source, path⟩ ∧
        SourceFile.new path true (some "cc") = Except.ok ⟨FileType.Source, path⟩ ∧
        SourceFile.new path true (some "c") = Except.ok ⟨FileType.Source, path⟩ ∧
        SourceFile.new path true (some "h") = Except.ok ⟨FileType.Header, path⟩ ∧
        SourceFile.new path true (some "hpp") = Except.ok ⟨FileType.Header, path⟩) ∧
    (∀ path ext, ext ∉ (["cpp", "cc", "c", "h", "hpp"] : List String) →
        SourceFile.new path true (some ext) =
          Except.error (AssociatedFileError.CouldNotSpecifyFileType ext)) ∧
    (∀ path, SourceFile.new path true none =
        Except.error (AssociatedFileError.NoFileExtension path)) := by
  refine ⟨fun _ _ => rfl, fun _ => ⟨rfl, rfl, rfl, rfl, rfl⟩, ?_, fun _ => rfl⟩
  intro path ext hext
  simp only [List.mem_cons, List.not_mem_nil, or_false, not_or] at hext
  obtain ⟨h1, h2, h3, h4, h5⟩ := hext
  simp [SourceFile.new, h1, h2, h3, h4, h5]

/-- C7 witness: the unrecognized extension py is rejected with the
could-not-specify-file-type error. -/
theorem c7_source_file_classification_witness :
    SourceFile.new "/t/file.py" true (some "py") =
      Except.error (AssociatedFileError.CouldNotSpecifyFileType "py") :=
  c7_source_file_classification.2.2.1 "/t/file.py" "py" (by decide)

/-- C8: `PkgConfigLibrary::find` consults only the first candidate file name:
if the static-archive candidate is absent from the searched directory, the
search reports nothing even when the shared-object candidate is present. -/
theorem c8_only_first_candidate_consulted :
    ∀ (findProgram : String → String → Option String) (library dir p : String),
      findProgram dir ("lib" ++ library ++ ".a") = none →
      findProgram dir ("lib" ++ library ++ ".so") = some p →
      PkgConfigLibrary.find findProgram library dir = none := by
  intro fp library dir p h1 _h2
  simp [PkgConfigLibrary.find, possibleLibNames, pkgFindLoop, h1]

/-- C8 witness: the library z, present only as /usr/lib/libz.so, is not found
by the single-library search. -/
theorem c8_only_first_candidate_consulted_witness :
    PkgConfigLibrary.find c8FindOracle "z" "/usr/lib" = none :=
  c8_only_first_candidate_consulted c8FindOracle "z" "/usr/lib" "/usr/lib/libz.so"
    (by decide) (by decide)

/-- When the file name exists, `evaluate_compiler_type` never reports the
environment-variable error. -/
theorem evaluateCompilerType_ne_envNotSet (s : String) (exe : List Char)
    (h : fileNameChars s = some exe) :
    evaluateCompilerType s ≠ Except.error CompilerError.CXXEnvNotSet := by
  have hf : fileName s = some (String.mk exe) := by simp [fileName, h]
  simp only [evaluateCompilerType, hf]
  split <;> [simp; split <;> simp]

/-- When the file name is missing, `evaluate_compiler_type` reports the
environment-variable error. -/
theorem evaluateCompilerType_eq_envNotSet (s : String)
    (h : fileNameChars s = none) :
    evaluateCompilerType s = Except.error CompilerError.CXXEnvNotSet := by
  simp [evaluateCompilerType, fileName, h]

/-- C6 (amended): `Compiler::new` fails with the compiler-not-configured
error exactly when the CXX variable is absent or its value has no final path
component (which covers the empty string, and also values such as .. or /);
a value whose final component matches a recognized vendor pattern yields a
successful construction. -/
theorem c6_compiler_not_configured_iff :
    (∀ cxxEnv : Option String,
        (Compiler.new cxxEnv = Except.error CompilerError.CXXEnvNotSet ↔
          cxxEnv = none ∨ ∃ s, cxxEnv = some s ∧ fileNameChars s = none)) ∧
    (∀ (s : String) (exe : List Char), fileNameChars s = some exe →
        (gccPatternIsMatch (String.mk exe) || clangPatternIsMatch (String.mk exe)) = true →
        compilerNewSucceeds (some s) = true) := by
  constructor
  · intro cxxEnv
    cases cxxEnv with
    | none => simp [Compiler.new]
    | some s =>
      cases h : fileNameChars s with
      | none =>
        simp [Compiler.new, evaluateCompilerType_eq_envNotSet s h, h]
      | some exe =>
        have hne := evaluateCompilerType_ne_envNotSet s exe h
        cases hev : evaluateCompilerType s with
        | ok ty => simp [Compiler.new, hev, h]
        | error e =>
          have he : e ≠ CompilerError.CXXEnvNotSet := by
            intro heq
            exact hne (heq ▸ hev)
          simp [Compiler.new, hev, h, he]
  · intro s exe h hmatch
    by_cases hg : gccPatternIsMatch (String.mk exe) = true
    · simp [compilerNewSucceeds, Compiler.new, evaluateCompilerType, fileName, h, hg]
    · have hc : clangPatternIsMatch (String.mk exe) = true := by
        rcases Bool.or_eq_true_iff.mp hmatch with hx | hx
        · exact absurd hx hg
        · exact hx
      simp [compilerNewSucceeds, Compiler.new, evaluateCompilerType, fileName, h, hg, hc]

/-- C6 counterexample: CXX set to .. (neither absent nor the empty string)
still fails with the compiler-not-configured error, refuting the claim that
this error occurs exactly when CXX is absent or empty. -/
theorem c6_counterexample_dotdot :
    Compiler.new (some "..") = Except.error CompilerError.CXXEnvNotSet ∧
    (some ".." : Option String) ≠ none ∧ (".." : String) ≠ "" :=
  ⟨rfl, by decide, by decide⟩

/-- C6 witness: CXX set to gcc yields a successful construction. -/
theorem c6_compiler_not_configured_iff_witness :
    compilerNewSucceeds (some "gcc") = true :=
  c6_compiler_not_configured_iff.2 "gcc" ['g', 'c', 'c'] (by decide) (by decide)

/-- C4: sanitizer flag composition. Requesting the thread sanitizer puts
-fsanitize=thread and -fPIE -pie into both the CXXFLAGS and LDFLAGS lines of
the emitted sanitizer content; every other recognized kind appends exactly
-fsanitize=(kind) to both lines; with no sanitizers entry the sanitizer
content of the debug fragment is empty. -/
theorem c4_sanitizer_flag_composition :
    (∀ g : IncludeFileArgs,
        containsSub (sanitizerCxxLine (setSanitizer g "thread")) "-fsanitize=thread" ∧
        containsSub (sanitizerCxxLine (setSanitizer g "thread")) "-fPIE -pie" ∧
        containsSub (sanitizerLdLine (setSanitizer g "thread")) "-fsanitize=thread" ∧
        containsSub (sanitizerLdLine (setSanitizer g "thread")) "-fPIE -pie" ∧
        generateFlagsSanitizer (setSanitizer g "thread") =
          sanitizerCxxLine (setSanitizer g "thread") ++ "\n\n" ++
            sanitizerLdLine (setSanitizer g "thread")) ∧
    (∀ (g : IncludeFileArgs) (kind : String),
        kind = "address" ∨ kind = "leak" ∨ kind = "undefined" →
        generateFlagsSanitizer (setSanitizer g kind) =
          "CXXFLAGS += -fsanitize=" ++ kind ++ " \n\nLDFLAGS += -fsanitize=" ++ kind ++ " ") ∧
    (∀ g : IncludeFileArgs, g.sanitizers = none → generateFlagsSanitizer g = "") := by
  refine ⟨?_, ?_, ?_⟩
  · intro g
    exact ⟨⟨"CXXFLAGS += ", " -fPIE -pie ", rfl⟩,
      ⟨"CXXFLAGS += -fsanitize=thread ", " ", rfl⟩,
      ⟨"LDFLAGS += ", " -fPIE -pie ", rfl⟩,
      ⟨"LDFLAGS += -fsanitize=thread ", " ", rfl⟩, rfl⟩
  · intro g kind hk
    rcases hk with rfl | rfl | rfl <;> rfl
  · intro g hg
    simp [generateFlagsSanitizer, hg]

/-- C4 witness: the address sanitizer appends exactly -fsanitize=address to
both lines, and an absent sanitizers entry yields empty content. -/
theorem c4_sanitizer_flag_composition_witness :
    generateFlagsSanitizer (setSanitizer ⟨none, none⟩ "address") =
      "CXXFLAGS += -fsanitize=address \n\nLDFLAGS += -fsanitize=address " ∧
    generateFlagsSanitizer ⟨none, none⟩ = "" :=
  ⟨c4_sanitizer_flag_composition.2.1 ⟨none, none⟩ "address" (Or.inl rfl),
    c4_sanitizer_flag_composition.2.2 ⟨none, none⟩ rfl⟩

/-- Rendering the argument list of the early `Mmk::to_string` ignores
everything at and after the first empty argument. -/
theorem mmkRenderArgs_append_empty (key : String) :
    ∀ xs ys, mmkRenderArgs key (xs ++ "" :: ys) = mmkRenderArgs key xs := by
  intro xs ys
  induction xs with
  | nil => simp [mmkRenderArgs]
  | cons x xs ih =>
    by_cases hx : x = ""
    · subst hx
      simp [mmkRenderArgs]
    · simp [mmkRenderArgs, hx, ih]

/-- Rendering the argument list of the later `Mmk::to_string` ignores
everything at and after the first argument with empty text. -/
theorem mmkRenderArgsKw_append_empty (key : String) :
    ∀ xs ys, mmkRenderArgsKw key (xs ++ "" :: ys) = mmkRenderArgsKw key xs := by
  intro xs ys
  induction xs with
  | nil => simp [mmkRenderArgsKw]
  | cons x xs ih =>
    by_cases hx : x = ""
    · subst hx
      simp [mmkRenderArgsKw]
    · simp [mmkRenderArgsKw, hx, ih]

/-- Without an empty argument, rendering emits every argument, in order. -/
theorem mmkRenderArgs_no_empty (key : String) :
    ∀ xs, "" ∉ xs → mmkRenderArgs key xs = strJoin (xs.map (mmkItemRendered key)) := by
  intro xs
  induction xs with
  | nil => intro _; rfl
  | cons x xs ih =>
    intro h
    simp only [List.mem_cons, not_or] at h
    obtain ⟨h1, h2⟩ := h
    have hx : ¬x = "" := fun hh => h1 hh.symm
    simp [mmkRenderArgs, hx, ih h2, strJoin]

/-- C9: for every manifest data key, the rendered flag string stops at the
first empty argument: arguments after an empty entry are omitted, and the
arguments before it are emitted in declaration order. This holds for both
generations of `Mmk::to_string`. -/
theorem c9_rendering_stops_at_first_empty :
    (∀ key xs ys, mmkToString [(key, xs ++ "" :: ys)] key = mmkToString [(key, xs)] key) ∧
    (∀ key xs ys, "" ∉ xs →
        mmkToString [(key, xs ++ "" :: ys)] key =
          trimEndString (strJoin (xs.map (mmkItemRendered key)))) ∧
    (∀ key xs ys, mmkToStringKw [(key, xs ++ "" :: ys)] key = mmkToStringKw [(key, xs)] key) := by
  refine ⟨?_, ?_, ?_⟩
  · intro key xs ys
    simp [mmkToString, mmkLookup, mmkRenderArgs_append_empty]
  · intro key xs ys h
    simp [mmkToString, mmkLookup, mmkRenderArgs_append_empty, mmkRenderArgs_no_empty key xs h]
  · intro key xs ys
    simp [mmkToStringKw, mmkLookup, mmkRenderArgsKw_append_empty]

/-- C9 witness: for MMK_SYS_INCLUDE the arguments before the empty entry are
rendered with their marker and the rest are dropped. -/
theorem c9_rendering_stops_at_first_empty_witness :
    mmkToString [("MMK_SYS_INCLUDE", ["a", "", "b"])] "MMK_SYS_INCLUDE" =
      trimEndString (strJoin (["a"].map (mmkItemRendered "MMK_SYS_INCLUDE"))) :=
  c9_rendering_stops_at_first_empty.2.1 "MMK_SYS_INCLUDE" ["a"] ["b"] (by decide)

/-- C10: the C++ standard flag of the warnings fragment defaults to
-std=c++20 when no standard is stored and when the stored string is not one
of the recognized values; a recognized stored value yields the matching
-std flag, and `add_cpp_version` stores the configured value lowercased. -/
theorem c10_cpp_version_flag :
    (∀ g : IncludeFileArgs, g.cppVersion = none →
        warningsMkCppVersionLine g = "CXXFLAGS += -std=c++20") ∧
    (∀ (g : IncludeFileArgs) (s : String), g.cppVersion = some s →
        s ∉ recognizedCppVersions →
        warningsMkCppVersionLine g = "CXXFLAGS += -std=c++20") ∧
    (∀ (g : IncludeFileArgs) (s : String), g.cppVersion = some s →
        s ∈ recognizedCppVersions →
        warningsMkCppVersionLine g = "CXXFLAGS += " ++ ("-std=" ++ s)) ∧
    (∀ (g : IncludeFileArgs) (version : String),
        (addCppVersion g version).cppVersion = some (strToLower version)) := by
  refine ⟨?_, ?_, ?_, fun _ _ => rfl⟩
  · intro g hg
    simp [warningsMkCppVersionLine, printCppVersion, hg]
  · intro g s hg hs
    simp only [recognizedCppVersions, List.mem_cons, List.not_mem_nil, or_false, not_or] at hs
    obtain ⟨h1, h2, h3, h4, h5, h6⟩ := hs
    simp [warningsMkCppVersionLine, printCppVersion, hg, h1, h2, h3, h4, h5, h6]
  · intro g s hg hs
    simp only [recognizedCppVersions, List.mem_cons, List.not_mem_nil, or_false] at hs
    rcases hs with rfl | rfl | rfl | rfl | rfl | rfl <;>
      simp [warningsMkCppVersionLine, printCppVersion, hg]

/-- C10 witness: configuring C++17 (uppercase) stores c++17 and emits
-std=c++17 into the warnings-fragment line. -/
theorem c10_cpp_version_flag_witness :
    warningsMkCppVersionLine (addCppVersion ⟨none, none⟩ "C++17") =
      "CXXFLAGS += " ++ ("-std=" ++ "c++17") :=
  c10_cpp_version_flag.2.2.1 (addCppVersion ⟨none, none⟩ "C++17") "c++17"
    (by decide) (by decide)

/-- A property preserved by every fold step is preserved by the fold. -/
theorem foldlPreserve {α β : Type} (P : β → Prop) (f : β → α → β)
    (hf : ∀ b a, P b → P (f b a)) :
    ∀ (l : List α) (b : β), P b → P (l.foldl f b) := by
  intro l
  induction l with
  | nil => exact fun b hb => hb
  | cons a l ih => exact fun b hb => ih _ (hf _ _ hb)

/-- After the mark-and-write step, the node carries the makefile-made flag. -/
theorem markAndWrite_mem (dep : Nat) (s : GenState) :
    dep ∈ (markAndWrite dep s).made := by
  unfold markAndWrite
  split
  · assumption
  · exact List.mem_cons_self _ _

/-- The mark-and-write step never clears a makefile-made flag. -/
theorem markAndWrite_made_mono (n dep : Nat) (s : GenState) (h : n ∈ s.made) :
    n ∈ (markAndWrite dep s).made := by
  unfold markAndWrite
  split
  · exact h
  · exact List.mem_cons_of_mem _ h

/-- The mark-and-write step never writes a rule file for a node already
carrying the makefile-made flag. -/
theorem markAndWrite_count_of_made (n dep : Nat) (s : GenState) (h : n ∈ s.made) :
    (markAndWrite dep s).writes.count n = s.writes.count n := by
  unfold markAndWrite
  split
  · rfl
  · rename_i hdep
    have hne : ¬n = dep := fun he => hdep (he ▸ h)
    simp [List.count_append, List.count_cons, hne]

/-- The mark-and-write step preserves the generation invariant. -/
theorem markAndWrite_inv (dep : Nat) (s : GenState) (h : GenInv s) :
    GenInv (markAndWrite dep s) := by
  obtain ⟨hnd, hsub⟩ := h
  unfold markAndWrite
  split
  · exact ⟨hnd, hsub⟩
  · rename_i hdep
    have hdw : dep ∉ s.writes := fun hw => hdep (hsub dep hw)
    constructor
    · rw [List.nodup_append]
      refine ⟨hnd, List.nodup_singleton _, ?_⟩
      intro a ha hb
      have hab : a = dep := by simpa using hb
      subst hab
      exact hdw ha
    · intro n hn
      rcases List.mem_append.mp hn with h1 | h1
      · exact List.mem_cons_of_mem _ (hsub n h1)
      · have hn2 : n = dep := by simpa using h1
        subst hn2
        exact List.mem_cons_self _ _

/-- The traversal never clears a flag and never writes a rule file for a node
whose makefile-made flag was already set when it started. -/
theorem generateMakefiles_of_made (req : Nat → List Nat) (n : Nat) :
    ∀ (fuel dep : Nat) (s : GenState), n ∈ s.made →
      n ∈ (generateMakefiles req fuel dep s).made ∧
        (generateMakefiles req fuel dep s).writes.count n = s.writes.count n := by
  intro fuel
  induction fuel with
  | zero => exact fun dep s h => ⟨h, rfl⟩
  | succ fuel ih =>
    intro dep s h
    simp only [generateMakefiles]
    refine foldlPreserve
      (fun b => n ∈ b.made ∧ b.writes.count n = s.writes.count n)
      (fun acc r => generateMakefiles req fuel r (markAndWrite r acc))
      ?_ (req dep) (markAndWrite dep s)
      ⟨markAndWrite_made_mono n dep s h, markAndWrite_count_of_made n dep s h⟩
    intro b r hb
    obtain ⟨hb1, hb2⟩ := hb
    obtain ⟨h3, h4⟩ := ih r (markAndWrite r b) (markAndWrite_made_mono n r b hb1)
    exact ⟨h3, by rw [h4, markAndWrite_count_of_made n r b hb1, hb2]⟩

/-- The traversal preserves the generation invariant. -/
theorem generateMakefiles_inv (req : Nat → List Nat) :
    ∀ (fuel dep : Nat) (s : GenState), GenInv s →
      GenInv (generateMakefiles req fuel dep s) := by
  intro fuel
  induction fuel with
  | zero => exact fun dep s h => h
  | succ fuel ih =>
    intro dep s h
    simp only [generateMakefiles]
    exact foldlPreserve GenInv _
      (fun b a hb => ih a _ (markAndWrite_inv a b hb)) (req dep) _
      (markAndWrite_inv dep s h)

/-- C3: the generation traversal writes each rule file at most once. A node
whose makefile-made flag is already set is never written again; the flag is
set before the traversal recurses into or past a node; a traversal from the
empty state produces a duplicate-free write list; and on the diamond graph
(0 requires 1 and 3, which both require 2) a full traversal writes the rule
file of the shared target 2 exactly once and flags it exactly once. -/
theorem c3_generate_at_most_once :
    (∀ (req : Nat → List Nat) (fuel dep n : Nat) (s : GenState), n ∈ s.made →
        (generateMakefiles req fuel dep s).writes.count n = s.writes.count n) ∧
    (∀ (req : Nat → List Nat) (fuel dep : Nat),
        (generateMakefiles req fuel dep ⟨[], []⟩).writes.Nodup) ∧
    (∀ (r : Nat) (s : GenState), r ∈ (markAndWrite r s).made) ∧
    ((generateMakefiles diamondReq 10 0 ⟨[], []⟩).writes.count 2 = 1 ∧
      2 ∈ (generateMakefiles diamondReq 10 0 ⟨[], []⟩).made ∧
      (generateMakefiles diamondReq 10 0 ⟨[], []⟩).made.count 2 = 1) := by
  refine ⟨?_, ?_, markAndWrite_mem, by decide, by decide, by decide⟩
  · exact fun req fuel dep n s h => (generateMakefiles_of_made req n fuel dep s h).2
  · intro req fuel dep
    exact (generateMakefiles_inv req fuel dep ⟨[], []⟩
      ⟨List.nodup_nil, by simp⟩).1

/-- C3 witness: starting with target 2 already flagged, a traversal of the
diamond graph from target 1 writes nothing for target 2. -/
theorem c3_generate_at_most_once_witness :
    (generateMakefiles diamondReq 5 1 ⟨[2], []⟩).writes.count 2 =
      (GenState.mk [2] []).writes.count 2 :=
  c3_generate_at_most_once.1 diamondReq 5 1 2 ⟨[2], []⟩ (by decide)

end Yambs
